import Mathlib

/-!
Verification development for the AutoVINReveal fulfillment core
(`src/server.js`).  The server's pure helpers (VIN validation, report
payload decoding) are transcribed directly; the stateful request
handlers (`/api/report`, the Stripe webhook, `/api/share`,
`/view/:token`) are embedded as explicit state-passing functions over a
record of the server's mutable stores (report cache, consumed-receipt
set, credit balances, ledger, share tokens).  External effects (Supabase
auth, Stripe/PayPal verification, the CarSimulcast fetch, zlib gunzip,
UTF-8 decoding, PDF conversion) enter as oracle parameters in an `Env`
record, so every handler is a total computable function.
-/

namespace AutoVINReveal

/-! ### JavaScript string primitives

List-level transcriptions of the string methods the server uses
(`toUpperCase`, `toLowerCase`, `trim`, `startsWith`); defined over
`String.data` so that every handler evaluates inside the kernel. -/

/-- JavaScript `String.prototype.toUpperCase` (ASCII range). -/
def jsToUpper (s : String) : String := String.mk (s.data.map Char.toUpper)

/-- JavaScript `String.prototype.toLowerCase` (ASCII range). -/
def jsToLower (s : String) : String := String.mk (s.data.map Char.toLower)

/-- JavaScript `String.prototype.trim`. -/
def jsTrim (s : String) : String :=
  String.mk (((s.data.dropWhile Char.isWhitespace).reverse.dropWhile
    Char.isWhitespace).reverse)

/-- JavaScript `s.startsWith(p)`. -/
def jsStartsWith (p s : String) : Bool := p.data.isPrefixOf s.data

/-! ### VIN validation (server.js lines 254-321) -/

/-- Weights of the ISO-3779 check-digit computation (`VIN_WEIGHTS`). -/
def VIN_WEIGHTS : List Nat := [8, 7, 6, 5, 4, 3, 2, 10, 0, 9, 8, 7, 6, 5, 4, 3, 2]

/-- Transliteration table `VIN_MAP`; characters not in the table
(including I, O, Q) have no value. -/
def vinMap : Char → Option Nat
  | 'A' => some 1 | 'B' => some 2 | 'C' => some 3 | 'D' => some 4
  | 'E' => some 5 | 'F' => some 6 | 'G' => some 7 | 'H' => some 8
  | 'J' => some 1 | 'K' => some 2 | 'L' => some 3 | 'M' => some 4
  | 'N' => some 5 | 'P' => some 7 | 'R' => some 9 | 'S' => some 2
  | 'T' => some 3 | 'U' => some 4 | 'V' => some 5 | 'W' => some 6
  | 'X' => some 7 | 'Y' => some 8 | 'Z' => some 9
  | c =>
    -- the table's digit rows: each of 0-9 maps to its numeric value
    if '0' ≤ c ∧ c ≤ '9' then some (c.toNat - 48) else none

/-- One character of the class `[A-HJ-NPR-Z0-9]`. -/
def isVinChar (c : Char) : Bool :=
  (decide ('A' ≤ c) && decide (c ≤ 'H')) ||
  (decide ('J' ≤ c) && decide (c ≤ 'N')) ||
  c == 'P' ||
  (decide ('R' ≤ c) && decide (c ≤ 'Z')) ||
  (decide ('0' ≤ c) && decide (c ≤ '9'))

/-- `isPlausibleVinFormat`: the regex `^[A-HJ-NPR-Z0-9]\x7b17\x7d$`. -/
def isPlausibleVinFormat (vin : String) : Bool :=
  vin.length == 17 && vin.data.all isVinChar

/-- Weighted transliterated sum of the loop in `vinCheckDigitOk`:
`none` models the JS early `return false` when a character has no
`VIN_MAP` value (or the string is shorter than the weight list). -/
def vinSum : List Char → List Nat → Option Nat
  | _, [] => some 0
  | [], _ :: _ => none
  | c :: cs, w :: ws =>
    match vinMap c, vinSum cs ws with
    | some v, some s => some (v * w + s)
    | _, _ => none

/-- `vinCheckDigitOk`: ISO-3779 check digit (sum mod 11, remainder 10
written `X`, compared against position 8, 0-based). -/
def vinCheckDigitOk (vin : String) : Bool :=
  match vinSum vin.data VIN_WEIGHTS with
  | none => false
  | some sum =>
    let r := sum % 11
    let expected := if r == 10 then 'X' else Char.ofNat (48 + r)
    vin.data.get? 8 == some expected

/-- Result of `validateVin`: either a failure code (`format` /
`check_digit`) or the normalized VIN. -/
inductive VinResult where
  | invalid (code : String)
  | valid (vin : String)
  deriving Repr, DecidableEq

/-- `validateVin` (server.js lines 304-321): normalize, check the
format regex, then the check digit. -/
def validateVin (vinRaw : String) : VinResult :=
  let vin := jsTrim (jsToUpper vinRaw)
  if !isPlausibleVinFormat vin then .invalid "format"
  else if !vinCheckDigitOk vin then .invalid "check_digit"
  else .valid vin

/-! ### Content decoder (server.js lines 227-243, `decodeReportBase64`)

Payloads are modelled as the byte sequence obtained from base64 decoding
(`Buffer.from(rawB64, "base64")`), i.e. `List Nat`.  `gunzipSync` and
`Buffer.toString("utf8")` are external library calls and enter as oracle
parameters `gz` (with `none` modelling a gunzip exception) and `utf8`. -/

/-- Decoder output: the tagged variant returned by `decodeReportBase64`.
`unknownE buf e` carries the `error: "gunzip-failed"` flag as `e`. -/
inductive Decoded where
  | html (text : String)
  | pdf (buffer : List Nat)
  | unknownE (buffer : List Nat) (gunzipFailed : Bool)
  deriving Repr, DecidableEq

/-- Gzip magic test: length at least 2 and first bytes 0x1f 0x8b. -/
def gzipMagic (buf : List Nat) : Bool :=
  match buf with
  | b0 :: b1 :: _ => b0 == 0x1f && b1 == 0x8b
  | _ => false

/-- The five bytes of `"%PDF-"`. -/
def pdfMagic : List Nat := [0x25, 0x50, 0x44, 0x46, 0x2d]

/-- ASCII lowercasing, modelling the case-insensitivity flag of the
HTML-sniff regex. -/
def lcAscii (c : Char) : Char :=
  if 'A' ≤ c ∧ c ≤ 'Z' then Char.ofNat (c.toNat + 32) else c

/-- The character class `\s` of a JavaScript regex. -/
def isJsSpace (c : Char) : Bool :=
  c == ' ' || c == '\t' || c == '\n' || c == '\r' ||
  c.toNat == 11 || c.toNat == 12 || c.toNat == 0xa0 || c.toNat == 0x1680 ||
  (decide (0x2000 ≤ c.toNat) && decide (c.toNat ≤ 0x200a)) ||
  c.toNat == 0x2028 || c.toNat == 0x2029 || c.toNat == 0x202f ||
  c.toNat == 0x205f || c.toNat == 0x3000 || c.toNat == 0xfeff

/-- Literal alternative `<!DOCTYPE html` of the sniff regex, folded to
lower case. -/
def doctypePat : List Char := "<!doctype html".data

/-- Literal part `<html` of the second alternative of the sniff regex. -/
def htmlPat : List Char := "<html".data

/-- Does the sniff regex `<!DOCTYPE html|<html[\s>]` (case-insensitive)
match at the head of `cs`? -/
def sniffHead (cs : List Char) : Bool :=
  doctypePat.isPrefixOf (cs.map lcAscii) ||
  (htmlPat.isPrefixOf (cs.map lcAscii) &&
    match cs.drop 5 with
    | d :: _ => isJsSpace d || d == '>'
    | [] => false)

/-- Does the sniff regex match anywhere in `cs`? -/
def sniffAny (cs : List Char) : Bool :=
  match cs with
  | [] => false
  | c :: rest => sniffHead (c :: rest) || sniffAny rest

/-- The test `/<!DOCTYPE html|<html[\s>]/i.test(asText.slice(0, 2048))`. -/
def htmlSniff (s : String) : Bool :=
  sniffAny (s.data.take 2048)

/-- `decodeReportBase64` on the decoded bytes: gzip magic → gunzip (or
`unknown` with the error flag), else PDF magic → `pdf`, else UTF-8
decode and sniff for HTML, else `unknown`. -/
def decodeReport (gz : List Nat → Option String) (utf8 : List Nat → String)
    (buf : List Nat) : Decoded :=
  if gzipMagic buf then
    match gz buf with
    | some s => .html s
    | none => .unknownE buf true
  else if buf.take 5 == pdfMagic then .pdf buf
  else
    let asText := utf8 buf
    if htmlSniff asText then .html asText
    else .unknownE buf false

/-! ### Server state and external-effect oracles

`St` collects the server's mutable stores: the file-based report cache
(`CACHE_DIR`, keyed by VIN and lowercased type), the `CONSUMED` receipt
set, the Supabase `credits` table, the credit ledger written by the
`use_credit_for_vin` RPC, and the `SHARE_TOKENS` map.  `fetchCount` and
`verifyCount` instrument the number of upstream report fetches
(`csGet .../getrecord/...`) and payment-receipt verifications performed,
so that "no fetch occurs" and "verified exactly once" are statable. -/

/-- One row of the append-only credit ledger. -/
structure LedgerEntry where
  userId : String
  delta : Int
  reason : String
  ref : String
  deriving Repr, DecidableEq

/-- A `SHARE_TOKENS` entry. -/
structure ShareMeta where
  vin : String
  ty : String
  exp : Nat
  deriving Repr, DecidableEq

/-- The server's mutable state. -/
structure St where
  cache : List (String × String × List Nat)
  consumed : List String
  credits : List (String × Nat)
  ledger : List LedgerEntry
  tokens : List (String × ShareMeta)
  fetchCount : Nat
  verifyCount : Nat
  deriving Repr, DecidableEq

/-- `readCache`: first entry for the key, if any (assoc-list lookup;
`cachePut` prepends, so the newest write shadows older ones). -/
def cacheGet (cache : List (String × String × List Nat)) (vin ty : String) :
    Option (List Nat) :=
  (cache.find? fun e => e.1 == vin && e.2.1 == ty).map (·.2.2)

/-- `writeCache`: last-write-wins overwrite. -/
def cachePut (cache : List (String × String × List Nat)) (vin ty : String)
    (data : List Nat) : List (String × String × List Nat) :=
  (vin, ty, data) :: cache

/-- JavaScript truthiness of a `readCache` result: `null` and the empty
string are both falsy. -/
def truthyCache : Option (List Nat) → Option (List Nat)
  | some d => if d.isEmpty then none else some d
  | none => none

/-- Balance lookup (`credits` row for the user, 0 when absent). -/
def getBalance (credits : List (String × Nat)) (uid : String) : Nat :=
  match credits.find? (·.1 == uid) with
  | some e => e.2
  | none => 0

/-- Balance write: prepend a fresh row; `getBalance` reads the newest. -/
def setBalance (credits : List (String × Nat)) (uid : String) (n : Nat) :
    List (String × Nat) :=
  (uid, n) :: credits

/-- Outcome of one payment-receipt verification attempt (Stripe
`checkout.sessions.retrieve` or PayPal `CapturesGetRequest`): `throws`
models a transport or lookup exception, `status s` a successfully
retrieved receipt with payment status `s`. -/
inductive VerifyOutcome where
  | throws
  | status (s : String)
  deriving Repr, DecidableEq

/-- Outcome of the upstream `csGet getrecord` call: `ok` with the
(base64-decoded) payload bytes, `reject` an error whose message matches
the CS_400/CS_404/invalid-VIN patterns, `fail` any other error. -/
inductive FetchOutcome where
  | ok (data : List Nat)
  | reject
  | fail
  deriving Repr, DecidableEq

/-- External-effect oracles for one request. -/
structure Env where
  /-- Result of the state+plate lookup, when attempted. -/
  plateVin : Option String
  /-- `getUser`: the authenticated user's id, if any. -/
  auth : Option String
  /-- Receipt verification outcome. -/
  verify : VerifyOutcome
  /-- Upstream report fetch outcome. -/
  fetch : FetchOutcome
  /-- The CS `/pdf` HTML-to-PDF conversion (`none` models failure). -/
  pdfConvert : Option (List Nat)
  /-- `gunzipSync` (`none` models an exception). -/
  gz : List Nat → Option String
  /-- `Buffer.toString("utf8")`. -/
  utf8 : List Nat → String

/-- An HTTP response of the fulfillment endpoints. -/
inductive Resp where
  | htmlBody (text : String)
  | pdfAttachment (buf : List Nat)
  | pdfInline (buf : List Nat)
  | err (status : Nat) (code : String)
  deriving Repr, DecidableEq

/-! ### The `/api/report` handler (server.js lines 701-870) -/

/-- Request body of `/api/report`. -/
structure ReportReq where
  vin : String
  ty : String
  asFmt : String
  allowLive : Bool
  oneTimeSession : Option String
  deriving Repr, DecidableEq

/-- VIN resolution: the `vin` field, trimmed and uppercased, or else the
result of the state+plate lookup. -/
def resolveVin (env : Env) (req : ReportReq) : Option String :=
  let tv := jsToUpper (jsTrim req.vin)
  if tv ≠ "" then some tv else env.plateVin

/-- Modelled from the spec: the Supabase stored procedure
`use_credit_for_vin` (invoked by rpc at server.js lines 772-775; its SQL
body is not under src/).  Per the spec's credit path it atomically
decrements the caller's balance by 1 and appends a `spend` ledger entry;
insufficient balance is an error with no partial debit. -/
def useCreditForVin (uid vin : String) (st : St) : Bool × St :=
  let b := getBalance st.credits uid
  if 1 ≤ b then
    (true, { st with credits := setBalance st.credits uid (b - 1),
                     ledger := st.ledger ++ [⟨uid, -1, "spend", vin⟩] })
  else (false, st)

/-- The content-kind dispatch on a payload about to be served
(server.js lines 816-866). -/
def serveReport (env : Env) (asFmt : String) (raw : List Nat) : Resp :=
  let decoded := decodeReport env.gz env.utf8 raw
  if asFmt == "pdf" then
    match decoded with
    | .pdf b => .pdfAttachment b
    | .html _ =>
      match env.pdfConvert with
      | some b => .pdfAttachment b
      | none => .err 502 "pdf_convert_failed"
    | .unknownE _ _ => .err 500 "unsupported_content"
  else
    match decoded with
    | .html t => .htmlBody t
    | .pdf b => .pdfInline b
    | .unknownE _ _ => .err 500 "unsupported_content"

/-- The live fetch and its error interpretation (server.js lines
784-806): on success the payload is written to the cache and served (an
empty payload falls through to the 404 at line 809); the catch block
maps provider rejection to 422 and anything else to 502 — with no
compensation of the credit or receipt consumed just before. -/
def doFetch (env : Env) (req : ReportReq) (v ty : String) (st : St) :
    Resp × St :=
  let st1 := { st with fetchCount := st.fetchCount + 1 }
  match env.fetch with
  | .ok data =>
    let st2 := { st1 with cache := cachePut st1.cache v ty data }
    if data.isEmpty then (.err 404 "not_found", st2)
    else (serveReport env req.asFmt data, st2)
  | .reject => (.err 422 "invalid_vin", st1)
  | .fail => (.err 502 "provider_error", st1)

/-- The cache-miss billing block of `/api/report` (server.js lines
743-806): receipt path when `oneTimeSession` is present (consumed-set
check, single verification attempt distinguishing throw from unpaid,
then consumption), credit path for an authenticated user, 401 otherwise;
then the live fetch. -/
def reportMiss (env : Env) (req : ReportReq) (v ty : String) (st : St) :
    Resp × St :=
  match req.oneTimeSession with
  | some ots =>
    if st.consumed.contains ots then (.err 409 "receipt_used", st)
    else
      let st1 := { st with verifyCount := st.verifyCount + 1 }
      match env.verify with
      | .throws => (.err 400 "receipt_invalid", st1)
      | .status s =>
        let needed := if jsStartsWith "pp_" ots then "COMPLETED" else "paid"
        if s ≠ needed then (.err 402 "payment_incomplete", st1)
        else
          let st2 := { st1 with consumed := ots :: st1.consumed }
          doFetch env req v ty st2
  | none =>
    match env.auth with
    | some uid =>
      match useCreditForVin uid v st with
      | (true, st1) => doFetch env req v ty st1
      | (false, _) => (.err 402 "insufficient_credits", st)
    | none => (.err 401 "purchase_required", st)

/-- The `/api/report` handler: VIN resolution, validation, cache-first
read (empty cached payloads are falsy and treated as a miss, as in the
source), billing+fetch on a miss when `allowLive`, 404 when nothing was
obtained, then the content dispatch. -/
def reportHandler (env : Env) (req : ReportReq) (st : St) : Resp × St :=
  match resolveVin env req with
  | none => (.err 400 "vin_required", st)
  | some tv =>
    match validateVin tv with
    | .invalid _ => (.err 422 "invalid_vin", st)
    | .valid v =>
      let ty := jsToLower req.ty
      match truthyCache (cacheGet st.cache v ty) with
      | some d => (serveReport env req.asFmt d, st)
      | none =>
        if req.allowLive then reportMiss env req v ty st
        else (.err 404 "not_found", st)

/-! ### Stripe webhook, `checkout.session.completed` branch
(server.js lines 354-408) -/

/-- Price configuration from the environment (`STRIPE_PRICE_*`,
`CREDITS_PER_*`). -/
structure PriceCfg where
  priceSingle : String
  price10 : String
  priceSingleTest : Option String
  price10Test : Option String
  creditsPerSingle : Nat
  creditsPer10 : Nat
  deriving Repr, DecidableEq

/-- One decoded `checkout.session.completed` event: the session id, its
line items as (price id, quantity) pairs, and the metadata fields the
handler reads (`userId` is `metadata.user_id || client_reference_id`,
`metaVin` is already uppercased, `metaType` lowercased, as in source). -/
structure WebhookEvent where
  sessionId : String
  lineItems : List (String × Nat)
  userId : Option String
  intent : String
  metaVin : String
  metaType : String
  deriving Repr, DecidableEq

/-- The `creditsToAdd` loop: per line item, quantity (0 is falsy and
becomes 1) times the credit value of its price id; unknown price ids
fall back to the single-credit value. -/
def creditsFor (cfg : PriceCfg) (items : List (String × Nat)) : Nat :=
  items.foldl
    (fun acc it =>
      let q := if it.2 == 0 then 1 else it.2
      if it.1 == cfg.priceSingle || some it.1 == cfg.priceSingleTest then
        acc + q * cfg.creditsPerSingle
      else if it.1 == cfg.price10 || some it.1 == cfg.price10Test then
        acc + q * cfg.creditsPer10
      else acc + q * cfg.creditsPerSingle)
    0

/-- The `checkout.session.completed` handler body: add the computed
credits to the user's balance (read row, then update or insert — both
arms amount to old balance plus the delta), then for a `buy_report`
intent with a VIN run `fetchAndCacheReport` (its exception is swallowed).
Note that the session id is used only to list line items: no store
records it, so nothing guards against reprocessing. -/
def webhookCompleted (cfg : PriceCfg) (fetch : FetchOutcome)
    (ev : WebhookEvent) (st : St) : St :=
  let add := creditsFor cfg ev.lineItems
  let st1 :=
    match ev.userId with
    | some uid =>
      if 0 < add then
        { st with credits := setBalance st.credits uid (getBalance st.credits uid + add) }
      else st
    | none => st
  if ev.intent == "buy_report" && ev.metaVin ≠ "" then
    match fetch with
    | .ok data =>
      { st1 with cache := cachePut st1.cache ev.metaVin ev.metaType data,
                 fetchCount := st1.fetchCount + 1 }
    | _ => { st1 with fetchCount := st1.fetchCount + 1 }
  else st1

/-! ### Share links (server.js lines 987-1070) -/

/-- Response of `POST /api/share`. -/
inductive ShareResp where
  | issued (token : String) (expiresAt : Nat)
  | shareErr (status : Nat) (msg : String)
  deriving Repr, DecidableEq

/-- `POST /api/share`: 400 without a VIN; 404 when the (uppercased VIN,
lowercased type) key is not cached (no token issued, nothing else
touched); otherwise record a fresh token expiring 24h from now.
`now` is `Date.now()` and `newTok` the random `makeToken()` result. -/
def shareHandler (now : Nat) (newTok : String) (vin ty : String) (st : St) :
    ShareResp × St :=
  if vin == "" then (.shareErr 400 "vin required", st)
  else
    let v := jsToUpper vin
    let t := jsToLower ty
    match truthyCache (cacheGet st.cache v t) with
    | none => (.shareErr 404 "Report not cached yet. Open it once first.", st)
    | some _ =>
      let exp := now + 24 * 60 * 60 * 1000
      (.issued newTok exp, { st with tokens := (newTok, ⟨v, t, exp⟩) :: st.tokens })

/-- `pruneShareTokens`: drop every entry whose expiry is not in the
future. -/
def pruneTokens (now : Nat) (tokens : List (String × ShareMeta)) :
    List (String × ShareMeta) :=
  tokens.filter fun e => decide (now < e.2.exp)

/-- `GET /view/:token`: prune, look the token up (404 "Link expired or
invalid" when absent or expired), then serve the cached payload (404
when the cache entry is gone, 500 on an unknown content kind). -/
def viewHandler (env : Env) (now : Nat) (tok : String) (st : St) :
    Resp × St :=
  let st1 := { st with tokens := pruneTokens now st.tokens }
  match st1.tokens.find? (·.1 == tok) with
  | none => (.err 404 "Link expired or invalid", st1)
  | some e =>
    if e.2.exp ≤ now then (.err 404 "Link expired or invalid", st1)
    else
      match truthyCache (cacheGet st1.cache e.2.vin e.2.ty) with
      | none => (.err 404 "Report not found in cache", st1)
      | some d =>
        match decodeReport env.gz env.utf8 d with
        | .html t => (.htmlBody t, st1)
        | .pdf b => (.pdfInline b, st1)
        | .unknownE _ _ => (.err 500 "Unsupported report content.", st1)

/-! ### Sample inputs used by witnesses -/

/-- The spec's example VIN (valid ISO-3779 check digit). -/
def vinA : String := "1HGCM82633A004352"

/-- A baseline oracle environment. -/
def env0 : Env :=
  { plateVin := none, auth := none, verify := .throws, fetch := .fail,
    pdfConvert := none, gz := fun _ => none, utf8 := fun _ => "" }

/-- The empty server state. -/
def st0 : St := ⟨[], [], [], [], [], 0, 0⟩

/-! ### Helper lemmas about the handler's state changes -/

theorem doFetch_consumed (env : Env) (req : ReportReq) (v ty : String)
    (st : St) : ((doFetch env req v ty st).2).consumed = st.consumed := by
  unfold doFetch
  cases env.fetch with
  | ok data => by_cases h : data.isEmpty <;> simp [h]
  | reject => rfl
  | fail => rfl

theorem doFetch_verifyCount (env : Env) (req : ReportReq) (v ty : String)
    (st : St) : ((doFetch env req v ty st).2).verifyCount = st.verifyCount := by
  unfold doFetch
  cases env.fetch with
  | ok data => by_cases h : data.isEmpty <;> simp [h]
  | reject => rfl
  | fail => rfl

theorem useCreditForVin_consumed (uid v : String) (st : St) :
    ((useCreditForVin uid v st).2).consumed = st.consumed := by
  unfold useCreditForVin
  by_cases h : 1 ≤ getBalance st.credits uid <;> simp [h]

/-- The consumed-receipt set after the billing+fetch block is either
untouched or extended by exactly the presented receipt id. -/
theorem reportMiss_consumed (env : Env) (req : ReportReq) (v ty : String)
    (st : St) :
    ((reportMiss env req v ty st).2).consumed = st.consumed ∨
    ∃ o, ((reportMiss env req v ty st).2).consumed = o :: st.consumed := by
  unfold reportMiss
  cases req.oneTimeSession with
  | none =>
    cases env.auth with
    | none => simp
    | some uid =>
      rcases huse : useCreditForVin uid v st with ⟨ok, st1⟩
      have hcons := useCreditForVin_consumed uid v st
      rw [huse] at hcons
      simp only at hcons
      cases ok with
      | false => simp [huse]
      | true =>
        simp [huse, doFetch_consumed]
        exact Or.inl hcons
  | some ots =>
    by_cases hc : ots ∈ st.consumed
    · simp [hc]
    · cases env.verify with
      | throws => simp [hc]
      | status s =>
        by_cases hs : s = (if jsStartsWith "pp_" ots then "COMPLETED" else "paid")
        · refine Or.inr ⟨ots, ?_⟩
          simp [hc, hs, doFetch_consumed]
        · simp [hc, hs]

theorem reportMiss_consumed_mono (env : Env) (req : ReportReq) (v ty : String)
    (st : St) (r : String) (h : r ∈ st.consumed) :
    r ∈ ((reportMiss env req v ty st).2).consumed := by
  rcases reportMiss_consumed env req v ty st with heq | ⟨o, heq⟩
  · rw [heq]; exact h
  · rw [heq]; exact List.mem_cons_of_mem _ h

/-- C1: a fulfillment request whose resolved and validated (vin, type)
key has a (non-empty) cached payload is answered by the content dispatch
on that cached payload, with the server state — in particular the credit
balances, ledger and consumed-receipt set — left exactly as it was, for
every authentication state and every `oneTimeSession` value carried by
the request. -/
theorem C1_cache_hit_serves_without_billing (env : Env) (req : ReportReq)
    (st : St) (tv v : String) (raw : List Nat)
    (hres : resolveVin env req = some tv)
    (hval : validateVin tv = .valid v)
    (hcache : truthyCache (cacheGet st.cache v (jsToLower req.ty)) = some raw) :
    reportHandler env req st = (serveReport env req.asFmt raw, st) := by
  simp [reportHandler, hres, hval, hcache]

/-- Witness for C1: a concrete cache hit with a guest request that even
carries a (consumed) receipt; the state survives untouched. -/
theorem C1_cache_hit_serves_without_billing_witness :
    reportHandler env0
      ⟨vinA, "carfax", "html", true, some "cs_live_r1"⟩
      { st0 with cache := [(vinA, "carfax", [65])], consumed := ["cs_live_r1"] } =
    (serveReport env0 "html" [65],
      { st0 with cache := [(vinA, "carfax", [65])], consumed := ["cs_live_r1"] }) :=
  C1_cache_hit_serves_without_billing env0
    ⟨vinA, "carfax", "html", true, some "cs_live_r1"⟩
    { st0 with cache := [(vinA, "carfax", [65])], consumed := ["cs_live_r1"] }
    vinA vinA [65] (by decide) (by decide) (by decide)

/-- C7: a request whose resolved VIN fails the ISO-3779 validation
(format regex over the charset without I, O, Q, or the weighted check
digit at position 9) is answered 422 `invalid_vin` with the state — so
credit balances, the consumed-receipt set and the upstream-fetch count —
unchanged. -/
theorem C7_invalid_vin_rejected_before_billing (env : Env) (req : ReportReq)
    (st : St) (tv : String)
    (hres : resolveVin env req = some tv)
    (hbad : isPlausibleVinFormat (jsTrim (jsToUpper tv)) = false ∨
            vinCheckDigitOk (jsTrim (jsToUpper tv)) = false) :
    reportHandler env req st = (.err 422 "invalid_vin", st) := by
  have hinv : ∃ c, validateVin tv = .invalid c := by
    unfold validateVin
    rcases hbad with hf | hc
    · exact ⟨"format", by simp [hf]⟩
    · by_cases hf : isPlausibleVinFormat (jsTrim (jsToUpper tv))
      · exact ⟨"check_digit", by simp [hf, hc]⟩
      · exact ⟨"format", by simp [hf]⟩
  obtain ⟨c, hc⟩ := hinv
  simp [reportHandler, hres, hc]

/-- Witness for C7: a 17-character VIN over the right charset whose
check digit fails, presented with a funded account: the request dies at
422 and the balance row survives. -/
theorem C7_invalid_vin_rejected_before_billing_witness :
    reportHandler { env0 with auth := some "u1" }
      ⟨"AAAAAAAAAAAAAAAAA", "carfax", "html", true, none⟩
      { st0 with credits := [("u1", 3)] } =
    (.err 422 "invalid_vin", { st0 with credits := [("u1", 3)] }) :=
  C7_invalid_vin_rejected_before_billing { env0 with auth := some "u1" }
    ⟨"AAAAAAAAAAAAAAAAA", "carfax", "html", true, none⟩
    { st0 with credits := [("u1", 3)] } "AAAAAAAAAAAAAAAAA"
    (by decide) (.inr (by decide))

/-- C4: receipts authorize at most one fulfillment.  First conjunct: no
request ever removes an id from the consumed-receipt set (the set only
grows, so a consumed receipt stays consumed across any sequence of
requests).  Second conjunct: a live-fetch-eligible request whose
resolved VIN misses the cache and whose `oneTimeSession` is already in
the consumed set is rejected 409 `receipt_used` with the state
untouched. -/
theorem C4_receipt_authorizes_at_most_once (env : Env) (req : ReportReq)
    (st : St) :
    (∀ r, r ∈ st.consumed → r ∈ ((reportHandler env req st).2).consumed) ∧
    (∀ tv v r, resolveVin env req = some tv → validateVin tv = .valid v →
      truthyCache (cacheGet st.cache v (jsToLower req.ty)) = none →
      req.allowLive = true → req.oneTimeSession = some r →
      r ∈ st.consumed →
      reportHandler env req st = (.err 409 "receipt_used", st)) := by
  constructor
  · intro r h
    cases hres : resolveVin env req with
    | none => simpa [reportHandler, hres] using h
    | some tv =>
      cases hval : validateVin tv with
      | invalid c => simpa [reportHandler, hres, hval] using h
      | valid v =>
        cases hcache : truthyCache (cacheGet st.cache v (jsToLower req.ty)) with
        | some d => simpa [reportHandler, hres, hval, hcache] using h
        | none =>
          by_cases hlive : req.allowLive
          · simpa [reportHandler, hres, hval, hcache, hlive] using
              reportMiss_consumed_mono env req v (jsToLower req.ty) st r h
          · simpa [reportHandler, hres, hval, hcache, hlive] using h
  · intro tv v r hres hval hcache hlive hots hmem
    simp [reportHandler, hres, hval, hcache, hlive, reportMiss, hots, hmem]

/-- Witness for C4: with the receipt `cs_live_r1` already consumed, a
cache-missing request presenting it again is answered 409 and the set
still contains the id. -/
theorem C4_receipt_authorizes_at_most_once_witness :
    reportHandler env0 ⟨vinA, "carfax", "html", true, some "cs_live_r1"⟩
      { st0 with consumed := ["cs_live_r1"] } =
      (.err 409 "receipt_used", { st0 with consumed := ["cs_live_r1"] }) ∧
    "cs_live_r1" ∈
      ((reportHandler env0 ⟨vinA, "carfax", "html", true, some "cs_live_r1"⟩
        { st0 with consumed := ["cs_live_r1"] }).2).consumed := by
  have h := C4_receipt_authorizes_at_most_once env0
    ⟨vinA, "carfax", "html", true, some "cs_live_r1"⟩
    { st0 with consumed := ["cs_live_r1"] }
  exact ⟨h.2 vinA vinA "cs_live_r1" (by decide) (by decide) (by decide) rfl rfl
      (by decide),
    h.1 "cs_live_r1" (by decide)⟩

/-- C9: on the receipt path (cache miss, live fetch allowed, fresh
`oneTimeSession`), the payment verification is performed exactly once
whatever its outcome, a verification exception is answered 400
`receipt_invalid`, while a retrieved receipt whose payment status is not
the accepted one (`COMPLETED` for `pp_`-prefixed PayPal captures,
`paid` for Stripe sessions) is answered 402 `payment_incomplete`. -/
theorem C9_receipt_verified_once_with_distinct_errors (env : Env)
    (req : ReportReq) (st : St) (tv v r : String)
    (hres : resolveVin env req = some tv)
    (hval : validateVin tv = .valid v)
    (hmiss : truthyCache (cacheGet st.cache v (jsToLower req.ty)) = none)
    (hlive : req.allowLive = true)
    (hots : req.oneTimeSession = some r)
    (hnew : r ∉ st.consumed) :
    ((reportHandler env req st).2.verifyCount = st.verifyCount + 1) ∧
    (env.verify = .throws →
      (reportHandler env req st).1 = .err 400 "receipt_invalid") ∧
    (∀ s, env.verify = .status s →
      s ≠ (if jsStartsWith "pp_" r then "COMPLETED" else "paid") →
      (reportHandler env req st).1 = .err 402 "payment_incomplete") := by
  have hbase : reportHandler env req st = reportMiss env req v (jsToLower req.ty) st := by
    simp [reportHandler, hres, hval, hmiss, hlive]
  refine ⟨?_, ?_, ?_⟩
  · rw [hbase]
    cases hv : env.verify with
    | throws => simp [reportMiss, hots, hnew, hv]
    | status s =>
      by_cases hs : s = (if jsStartsWith "pp_" r then "COMPLETED" else "paid")
      · simp [reportMiss, hots, hnew, hv, hs, doFetch_verifyCount]
      · simp [reportMiss, hots, hnew, hv, hs]
  · intro hv
    rw [hbase]
    simp [reportMiss, hots, hnew, hv]
  · intro s hv hs
    rw [hbase]
    simp [reportMiss, hots, hnew, hv, hs]

/-- Witness for C9: a fresh Stripe-style receipt whose verification
throws is counted once and answered `receipt_invalid`. -/
theorem C9_receipt_verified_once_with_distinct_errors_witness :
    ((reportHandler env0 ⟨vinA, "carfax", "html", true, some "cs_live_r1"⟩
        st0).2.verifyCount = st0.verifyCount + 1) ∧
    ((reportHandler env0 ⟨vinA, "carfax", "html", true, some "cs_live_r1"⟩
        st0).1 = .err 400 "receipt_invalid") := by
  have h := C9_receipt_verified_once_with_distinct_errors env0
    ⟨vinA, "carfax", "html", true, some "cs_live_r1"⟩ st0 vinA vinA
    "cs_live_r1" (by decide) (by decide) (by decide) rfl rfl (by decide)
  exact ⟨h.1, h.2.1 rfl⟩

/-! ### The missing compensations (claims C2, C3, C5)

The catch block of the live fetch (server.js lines 789-806) returns the
422/502 error directly: it contains no call that would append a `refund`
ledger entry, restore the balance, or remove the consumed receipt id,
and the webhook handler records no processed session id.  The following
theorems evaluate the embedded handlers at concrete failing inputs. -/

/-- C2 failing input: user `u1` holds a balance of 1, requests the
uncached example VIN, the credit is debited via `use_credit_for_vin`,
and the upstream fetch fails.  The request is answered 502
`provider_error`, the balance stays at 0 (not restored to the
pre-request 1), and the ledger holds only the `spend` entry — no
`refund` entry offsets it. -/
theorem C2_failed_credit_fetch_is_not_refunded :
    (reportHandler { env0 with auth := some "u1" }
        ⟨vinA, "carfax", "html", true, none⟩
        { st0 with credits := [("u1", 1)] }).1 = .err 502 "provider_error" ∧
    getBalance (reportHandler { env0 with auth := some "u1" }
        ⟨vinA, "carfax", "html", true, none⟩
        { st0 with credits := [("u1", 1)] }).2.credits "u1" = 0 ∧
    (reportHandler { env0 with auth := some "u1" }
        ⟨vinA, "carfax", "html", true, none⟩
        { st0 with credits := [("u1", 1)] }).2.ledger =
      [⟨"u1", -1, "spend", vinA⟩] := by decide

/-- C3 failing input: a fresh paid receipt `cs_live_r1` is consumed, the
upstream fetch fails (502 returned), and the id stays in the consumed
set, so the retry with the same receipt is rejected 409 `receipt_used`
instead of succeeding. -/
theorem C3_failed_receipt_fetch_burns_the_receipt :
    (reportHandler { env0 with verify := .status "paid" }
        ⟨vinA, "carfax", "html", true, some "cs_live_r1"⟩ st0).1 =
      .err 502 "provider_error" ∧
    (reportHandler { env0 with verify := .status "paid" }
        ⟨vinA, "carfax", "html", true, some "cs_live_r1"⟩ st0).2.consumed =
      ["cs_live_r1"] ∧
    (reportHandler { env0 with verify := .status "paid" }
        ⟨vinA, "carfax", "html", true, some "cs_live_r1"⟩
        (reportHandler { env0 with verify := .status "paid" }
          ⟨vinA, "carfax", "html", true, some "cs_live_r1"⟩ st0).2).1 =
      .err 409 "receipt_used" := by decide

/-- Price configuration for the C5 failing input. -/
def cfg5 : PriceCfg := ⟨"price_single", "price_ten", none, none, 1, 5⟩

/-- The C5 failing event: session `cs_sess_1`, one single-credit line
item, credited to user `u1`. -/
def ev5 : WebhookEvent := ⟨"cs_sess_1", [("price_single", 1)], some "u1", "", "", "carfax"⟩

/-- C5 failing input: delivering the same `checkout.session.completed`
event for session `cs_sess_1` twice leaves `u1` with balance 2 where a
single delivery leaves 1 — the handler keeps no record of processed
session ids, so reprocessing double-credits. -/
theorem C5_webhook_reprocessing_double_credits :
    getBalance (webhookCompleted cfg5 .fail ev5 st0).credits "u1" = 1 ∧
    getBalance (webhookCompleted cfg5 .fail ev5
        (webhookCompleted cfg5 .fail ev5 st0)).credits "u1" = 2 := by decide

/-- The recursive sniff scan finds a match exactly when the regex
matches at some position of the scanned text. -/
theorem sniffAny_iff (l : List Char) :
    sniffAny l = true ↔ ∃ i, sniffHead (l.drop i) = true := by
  induction l with
  | nil =>
    constructor
    · intro h
      exact absurd h (by simp [sniffAny])
    · rintro ⟨i, hi⟩
      rw [List.drop_nil] at hi
      exact absurd hi (by decide)
  | cons c rest ih =>
    constructor
    · intro h
      rcases Bool.or_eq_true_iff.mp (by simpa [sniffAny] using h) with h1 | h2
      · exact ⟨0, h1⟩
      · obtain ⟨i, hi⟩ := ih.mp h2
        exact ⟨i + 1, hi⟩
    · rintro ⟨i, hi⟩
      cases i with
      | zero =>
        simp only [sniffAny, Bool.or_eq_true]
        exact Or.inl hi
      | succ j =>
        simp only [sniffAny, Bool.or_eq_true]
        exact Or.inr (ih.mpr ⟨j, hi⟩)

/-- C6: `decodeReportBase64` classifies its (base64-decoded) bytes in
order — gzip magic first (gunzip success gives `html`, gunzip failure
gives `unknown` with the error flag instead of throwing), then the
`%PDF-` magic, then an HTML doctype/tag sniff over the first 2048
characters of the UTF-8 text, and `unknown` otherwise; being a Lean
function of the bytes and the two library oracles, it is pure and
total. -/
theorem C6_decoder_classifies_in_order (gz : List Nat → Option String)
    (utf8 : List Nat → String) (buf : List Nat) :
    (gzipMagic buf = true →
      (∀ s, gz buf = some s → decodeReport gz utf8 buf = .html s) ∧
      (gz buf = none → decodeReport gz utf8 buf = .unknownE buf true)) ∧
    (gzipMagic buf = false → buf.take 5 = pdfMagic →
      decodeReport gz utf8 buf = .pdf buf) ∧
    (gzipMagic buf = false → buf.take 5 ≠ pdfMagic →
      (∃ i, sniffHead (((utf8 buf).data.take 2048).drop i) = true) →
      decodeReport gz utf8 buf = .html (utf8 buf)) ∧
    (gzipMagic buf = false → buf.take 5 ≠ pdfMagic →
      (∀ i, sniffHead (((utf8 buf).data.take 2048).drop i) = false) →
      decodeReport gz utf8 buf = .unknownE buf false) := by
  refine ⟨fun hgz => ⟨fun s hs => ?_, fun hn => ?_⟩, fun hgz hpdf => ?_,
    fun hgz hpdf hsniff => ?_, fun hgz hpdf hno => ?_⟩
  · simp [decodeReport, hgz, hs]
  · simp [decodeReport, hgz, hn]
  · simp [decodeReport, hgz, hpdf]
  · have hs : htmlSniff (utf8 buf) = true := (sniffAny_iff _).mpr hsniff
    simp [decodeReport, hgz, hpdf, hs]
  · have hs : htmlSniff (utf8 buf) = false := by
      cases h : htmlSniff (utf8 buf) with
      | false => rfl
      | true =>
        obtain ⟨i, hi⟩ := (sniffAny_iff _).mp h
        rw [hno i] at hi
        exact absurd hi (by decide)
    simp [decodeReport, hgz, hpdf, hs]

/-- Witness for C6: one concrete byte string per classification branch
(gzip magic with gunzip success and failure, the PDF magic, a sniffed
HTML text, and an unclassifiable payload). -/
theorem C6_decoder_classifies_in_order_witness :
    decodeReport (fun _ => some "Z") (fun _ => "") [0x1f, 0x8b] = .html "Z" ∧
    decodeReport (fun _ => none) (fun _ => "") [0x1f, 0x8b] =
      .unknownE [0x1f, 0x8b] true ∧
    decodeReport (fun _ => none) (fun _ => "") [0x25, 0x50, 0x44, 0x46, 0x2d, 9] =
      .pdf [0x25, 0x50, 0x44, 0x46, 0x2d, 9] ∧
    decodeReport (fun _ => none) (fun _ => "<html>") [65] = .html "<html>" ∧
    decodeReport (fun _ => none) (fun _ => "") [65] = .unknownE [65] false := by
  refine ⟨((C6_decoder_classifies_in_order (fun _ => some "Z") (fun _ => "")
      [0x1f, 0x8b]).1 (by decide)).1 "Z" rfl,
    ((C6_decoder_classifies_in_order (fun _ => none) (fun _ => "")
      [0x1f, 0x8b]).1 (by decide)).2 rfl,
    (C6_decoder_classifies_in_order (fun _ => none) (fun _ => "")
      [0x25, 0x50, 0x44, 0x46, 0x2d, 9]).2.1 (by decide) (by decide),
    (C6_decoder_classifies_in_order (fun _ => none) (fun _ => "<html>")
      [65]).2.2.1 (by decide) (by decide) ⟨0, by decide⟩,
    (C6_decoder_classifies_in_order (fun _ => none) (fun _ => "")
      [65]).2.2.2 (by decide) (by decide) fun i => ?_⟩
  rw [show (((fun _ => "") : List Nat → String) [65]).data.take 2048 = [] from rfl,
    List.drop_nil]
  decide

theorem cacheGet_cachePut (c : List (String × String × List Nat))
    (v ty : String) (d : List Nat) :
    cacheGet (cachePut c v ty d) v ty = some d := by
  simp [cacheGet, cachePut, List.find?]

theorem getBalance_setBalance (c : List (String × Nat)) (uid : String)
    (n : Nat) : getBalance (setBalance c uid n) uid = n := by
  simp [getBalance, setBalance, List.find?]

/-- C8: share links are cache-only and expire uniformly.  Conjuncts:
(1) `POST /api/share` for an uncached (vin, type) key answers 404 with
the whole state (in particular the token store) unchanged; (2) no share
request, hit or miss, ever touches balances, the consumed-receipt set or
the upstream-fetch counter; (3) on a cache hit the issued token expires
exactly 24 hours (86400000 ms) after issuance; (4) `GET /view/:token`
answers the same 404 response for a token all of whose store entries are
expired as for a token that was never issued; (5) every view request
purges all expired entries from the token store. -/
theorem C8_share_links_cache_only_and_uniform_expiry (env : Env) (now : Nat)
    (tok vin ty : String) (st : St) :
    (vin ≠ "" → truthyCache (cacheGet st.cache (jsToUpper vin) (jsToLower ty)) = none →
      shareHandler now tok vin ty st =
        (.shareErr 404 "Report not cached yet. Open it once first.", st)) ∧
    ((shareHandler now tok vin ty st).2.credits = st.credits ∧
      (shareHandler now tok vin ty st).2.consumed = st.consumed ∧
      (shareHandler now tok vin ty st).2.fetchCount = st.fetchCount) ∧
    (∀ d, vin ≠ "" →
      truthyCache (cacheGet st.cache (jsToUpper vin) (jsToLower ty)) = some d →
      shareHandler now tok vin ty st =
        (.issued tok (now + 24 * 60 * 60 * 1000),
         { st with tokens :=
            (tok, ⟨jsToUpper vin, jsToLower ty, now + 24 * 60 * 60 * 1000⟩) ::
              st.tokens })) ∧
    ((∀ m, (tok, m) ∈ st.tokens → m.exp ≤ now) →
      (viewHandler env now tok st).1 = .err 404 "Link expired or invalid") ∧
    ((viewHandler env now tok st).2.tokens = pruneTokens now st.tokens) := by
  refine ⟨fun hvin hmiss => ?_, ?_, fun d hvin hhit => ?_, fun hexp => ?_, ?_⟩
  · simp [shareHandler, hvin, hmiss]
  · unfold shareHandler
    by_cases hv : vin == ""
    · simp [hv]
    · cases hm : truthyCache (cacheGet st.cache (jsToUpper vin) (jsToLower ty)) with
      | none => simp [hv, hm]
      | some d => simp [hv, hm]
  · simp [shareHandler, hvin, hhit]
  · have hnone : (pruneTokens now st.tokens).find? (·.1 == tok) = none := by
      rw [List.find?_eq_none]
      intro x hx hbeq
      obtain ⟨a, m⟩ := x
      obtain ⟨hmem2, hlt⟩ : (a, m) ∈ st.tokens ∧ now < m.exp := by
        simpa [pruneTokens] using hx
      have hat : a = tok := by simpa using hbeq
      have hle : m.exp ≤ now := hexp m (by rw [← hat]; exact hmem2)
      omega
    simp [viewHandler, hnone]
  · unfold viewHandler
    cases hf : (pruneTokens now st.tokens).find? (·.1 == tok) with
    | none => simp [hf]
    | some e =>
      simp only [hf]
      by_cases he : e.2.exp ≤ now
      · simp [he]
      · simp only [he, if_false, ite_false]
        cases hm : truthyCache (cacheGet st.cache e.2.vin e.2.ty) with
        | none => simp [hm]
        | some d =>
          simp only [hm]
          cases decodeReport env.gz env.utf8 d <;> simp

/-- Witness for C8: an uncached VIN is refused a share link; a cached
VIN gets a token expiring at `now + 86400000`; a token that expired at
time 5 is, at time 5, answered exactly like an unknown token; the
expired entry is purged. -/
theorem C8_share_links_cache_only_and_uniform_expiry_witness :
    shareHandler 0 "t1" vinA "carfax" st0 =
      (.shareErr 404 "Report not cached yet. Open it once first.", st0) ∧
    shareHandler 7 "t1" vinA "carfax" { st0 with cache := [(vinA, "carfax", [65])] } =
      (.issued "t1" (7 + 24 * 60 * 60 * 1000),
       { st0 with cache := [(vinA, "carfax", [65])],
                  tokens := [("t1", ⟨vinA, "carfax", 7 + 24 * 60 * 60 * 1000⟩)] }) ∧
    (viewHandler env0 5 "t1" { st0 with tokens := [("t1", ⟨vinA, "carfax", 5⟩)] }).1 =
      .err 404 "Link expired or invalid" ∧
    (viewHandler env0 5 "t1" { st0 with tokens := [("t1", ⟨vinA, "carfax", 5⟩)] }).2.tokens =
      pruneTokens 5 [("t1", ⟨vinA, "carfax", 5⟩)] := by
  refine ⟨(C8_share_links_cache_only_and_uniform_expiry env0 0 "t1" vinA
      "carfax" st0).1 (by decide) (by decide),
    (C8_share_links_cache_only_and_uniform_expiry env0 7 "t1" vinA "carfax"
      { st0 with cache := [(vinA, "carfax", [65])] }).2.2.1 [65] (by decide)
      (by decide),
    (C8_share_links_cache_only_and_uniform_expiry env0 5 "t1" vinA "carfax"
      { st0 with tokens := [("t1", ⟨vinA, "carfax", 5⟩)] }).2.2.2.1 ?_,
    (C8_share_links_cache_only_and_uniform_expiry env0 5 "t1" vinA "carfax"
      { st0 with tokens := [("t1", ⟨vinA, "carfax", 5⟩)] }).2.2.2.2⟩
  intro m hm
  have : m = (⟨vinA, "carfax", 5⟩ : ShareMeta) := by simpa using hm
  rw [this]

/-- The content dispatch answers 500 `unsupported_content` on an
`unknown` payload for every requested output format. -/
theorem serveReport_unknown (env : Env) (asFmt : String) (raw b : List Nat)
    (e : Bool) (hdec : decodeReport env.gz env.utf8 raw = .unknownE b e) :
    serveReport env asFmt raw = .err 500 "unsupported_content" := by
  unfold serveReport
  rw [hdec]
  by_cases h : asFmt == "pdf" <;> simp [h]

/-- C10: a payload that decodes to kind `unknown` is answered 500
`unsupported_content` whatever the requested output format (`as=html` or
`as=pdf`).  Conjuncts: (1) on a cache hit this happens with the state
untouched; (2) on the fresh-fetch credit path the 500 is returned even
though the credit has been debited (with its lone `spend` ledger entry,
no compensation) and the payload already written to the cache; (3) on
the fresh-fetch receipt path the 500 is returned even though the receipt
has been consumed and the payload cached. -/
theorem C10_unknown_payload_500_after_side_effects (env : Env)
    (req : ReportReq) (st : St) :
    (∀ tv v raw b e, resolveVin env req = some tv → validateVin tv = .valid v →
      truthyCache (cacheGet st.cache v (jsToLower req.ty)) = some raw →
      decodeReport env.gz env.utf8 raw = .unknownE b e →
      reportHandler env req st = (.err 500 "unsupported_content", st)) ∧
    (∀ tv v uid data b e, resolveVin env req = some tv →
      validateVin tv = .valid v →
      truthyCache (cacheGet st.cache v (jsToLower req.ty)) = none →
      req.allowLive = true → req.oneTimeSession = none → env.auth = some uid →
      1 ≤ getBalance st.credits uid → env.fetch = .ok data → data ≠ [] →
      decodeReport env.gz env.utf8 data = .unknownE b e →
      (reportHandler env req st).1 = .err 500 "unsupported_content" ∧
      cacheGet (reportHandler env req st).2.cache v (jsToLower req.ty) = some data ∧
      getBalance (reportHandler env req st).2.credits uid + 1 =
        getBalance st.credits uid ∧
      (reportHandler env req st).2.ledger = st.ledger ++ [⟨uid, -1, "spend", v⟩]) ∧
    (∀ tv v r data b e, resolveVin env req = some tv →
      validateVin tv = .valid v →
      truthyCache (cacheGet st.cache v (jsToLower req.ty)) = none →
      req.allowLive = true → req.oneTimeSession = some r → r ∉ st.consumed →
      env.verify = .status (if jsStartsWith "pp_" r then "COMPLETED" else "paid") →
      env.fetch = .ok data → data ≠ [] →
      decodeReport env.gz env.utf8 data = .unknownE b e →
      (reportHandler env req st).1 = .err 500 "unsupported_content" ∧
      cacheGet (reportHandler env req st).2.cache v (jsToLower req.ty) = some data ∧
      (reportHandler env req st).2.consumed = r :: st.consumed) := by
  refine ⟨fun tv v raw b e hres hval hcache hdec => ?_,
    fun tv v uid data b e hres hval hmiss hlive hots hauth hbal hfetch hne hdec => ?_,
    fun tv v r data b e hres hval hmiss hlive hots hnew hver hfetch hne hdec => ?_⟩
  · have hserve := serveReport_unknown env req.asFmt raw b e hdec
    simp [reportHandler, hres, hval, hcache, hserve]
  · have hserve := serveReport_unknown env req.asFmt data b e hdec
    have hdata : data.isEmpty = false := by
      cases data with
      | nil => exact absurd rfl hne
      | cons a l => rfl
    have hrep : reportHandler env req st =
        (serveReport env req.asFmt data,
         { st with
             credits := setBalance st.credits uid (getBalance st.credits uid - 1),
             ledger := st.ledger ++ [⟨uid, -1, "spend", v⟩],
             fetchCount := st.fetchCount + 1,
             cache := cachePut st.cache v (jsToLower req.ty) data }) := by
      simp [reportHandler, hres, hval, hmiss, hlive, reportMiss, hots, hauth,
        useCreditForVin, hbal, doFetch, hfetch, hdata]
    rw [hrep]
    refine ⟨hserve, ?_, ?_, ?_⟩
    · simp [cacheGet_cachePut]
    · simp [getBalance_setBalance]
      omega
    · rfl
  · have hserve := serveReport_unknown env req.asFmt data b e hdec
    have hdata : data.isEmpty = false := by
      cases data with
      | nil => exact absurd rfl hne
      | cons a l => rfl
    have hrep : reportHandler env req st =
        (serveReport env req.asFmt data,
         { st with
             consumed := r :: st.consumed,
             verifyCount := st.verifyCount + 1,
             fetchCount := st.fetchCount + 1,
             cache := cachePut st.cache v (jsToLower req.ty) data }) := by
      simp [reportHandler, hres, hval, hmiss, hlive, reportMiss, hots, hnew,
        hver, doFetch, hfetch, hdata]
    rw [hrep]
    exact ⟨hserve, by simp [cacheGet_cachePut], rfl⟩

/-- Witness for C10: a cached unclassifiable payload answered 500 with
the state untouched, and a freshly fetched unclassifiable payload
answered 500 with the balance already debited and the payload cached. -/
theorem C10_unknown_payload_500_after_side_effects_witness :
    reportHandler env0 ⟨vinA, "carfax", "html", true, none⟩
      { st0 with cache := [(vinA, "carfax", [1])] } =
      (.err 500 "unsupported_content", { st0 with cache := [(vinA, "carfax", [1])] }) ∧
    (reportHandler { env0 with auth := some "u1", fetch := .ok [1] }
      ⟨vinA, "carfax", "html", true, none⟩
      { st0 with credits := [("u1", 1)] }).1 = .err 500 "unsupported_content" ∧
    cacheGet (reportHandler { env0 with auth := some "u1", fetch := .ok [1] }
      ⟨vinA, "carfax", "html", true, none⟩
      { st0 with credits := [("u1", 1)] }).2.cache vinA "carfax" = some [1] ∧
    getBalance (reportHandler { env0 with auth := some "u1", fetch := .ok [1] }
      ⟨vinA, "carfax", "html", true, none⟩
      { st0 with credits := [("u1", 1)] }).2.credits "u1" + 1 = 1 := by
  have h1 := (C10_unknown_payload_500_after_side_effects env0
    ⟨vinA, "carfax", "html", true, none⟩
    { st0 with cache := [(vinA, "carfax", [1])] }).1 vinA vinA [1] [1] false
    (by decide) (by decide) (by decide) (by decide)
  have h2 := (C10_unknown_payload_500_after_side_effects
    { env0 with auth := some "u1", fetch := .ok [1] }
    ⟨vinA, "carfax", "html", true, none⟩
    { st0 with credits := [("u1", 1)] }).2.1 vinA vinA "u1" [1] [1] false
    (by decide) (by decide) (by decide) rfl rfl rfl (by decide) rfl
    (by decide) (by decide)
  exact ⟨h1, h2.1, h2.2.1, h2.2.2.1⟩

end AutoVINReveal
